import Mathlib

/-!
Verification of the interaction core of the Web-Scraper repository
(`js_scraper.js`): the content-stabilization driver `advancedAutoScroll`,
the network-response correlator `waitForNetworkResponse`, and the form
automaton `handleForm` / `handleDynamicFormFields`.

The page is an external, unreliable collaborator.  We embed each method as
a pure function over an explicit *environment* that records, per page
operation, what the live page would have answered (including thrown
exceptions, modelled as `Except.error`).  Machine numbers are modelled as
`Nat`/`Int` (the JS counters are small non-negative integers; the DOM
measurements are only ever compared for equality).
-/

namespace WebScraper

/-!
## Content stabilization driver (`advancedAutoScroll`, js_scraper.js 691-754)

One loop iteration touches the page several times: the optional
`untilSelector` query, the optional `untilCallback` evaluation, the scroll
trigger, and the two signal captures (`scrollHeight`, node count).  All of
those sit inside one `try` block and any exception lands in the same
`catch`, so for the loop's behaviour an iteration is summarized by either
`err` (some page call threw) or `normal` with the values the page returned:
whether the `untilSelector` query found an element, whether the
`untilCallback` returned a truthy value, and the two freshly captured
signals.  The `waitForTimeout` delays carry no information and are elided.
-/

/-- What the page does during one iteration of the scroll loop. -/
inductive IterEvent where
  /-- Some page operation of this iteration threw (caught at js_scraper.js 743). -/
  | err : IterEvent
  /-- All page operations succeeded: `selFound` is whether `page.$(untilSelector)`
  returned an element, `cbStop` whether `page.evaluate(untilCallback)` was truthy,
  and `newHeight`/`newNodeCount` are the two captured growth signals. -/
  | normal (selFound cbStop : Bool) (newHeight newNodeCount : Int) : IterEvent
deriving DecidableEq

/-- The destructured `options` argument of `advancedAutoScroll`
(defaults from js_scraper.js 692-698; `delay` only feeds `waitForTimeout`
and is elided).  `untilSelector`/`untilCallback` model the JS truthiness
test `if (untilSelector)` / `if (untilCallback)` by presence. -/
structure ScrollConfig where
  maxScrolls : Nat := 20
  maxRetries : Nat := 5
  untilSelector : Option String := none
  untilCallback : Option String := none
deriving DecidableEq

/-- The value returned by `advancedAutoScroll` (js_scraper.js 753). -/
structure ScrollResult where
  scrolls : Nat
  retries : Nat
  stoppedBy : String
deriving DecidableEq, Repr

/-- The `while (scrollCount < maxScrolls)` loop of `advancedAutoScroll`
(js_scraper.js 706-752), with the page's behaviour at the `i`-th iteration
given by `env i`.  State: `scrollCount`, `retries`, `lastHeight`,
`lastNodeCount` exactly as in the source. -/
def advLoop (cfg : ScrollConfig) (env : Nat → IterEvent) (i scrollCount retries : Nat)
    (lastHeight lastNodeCount : Int) : ScrollResult :=
  if _h : scrollCount < cfg.maxScrolls then
    match env i with
    | .err =>
        if retries + 1 ≥ cfg.maxRetries then
          ⟨scrollCount, retries + 1, "error"⟩
        else
          advLoop cfg env (i + 1) scrollCount (retries + 1) lastHeight lastNodeCount
    | .normal selFound cbStop newHeight newNodeCount =>
        if cfg.untilSelector.isSome && selFound then
          ⟨scrollCount, retries, "untilSelector"⟩
        else if cfg.untilCallback.isSome && cbStop then
          ⟨scrollCount, retries, "untilCallback"⟩
        else if newHeight = lastHeight ∧ newNodeCount = lastNodeCount then
          if retries + 1 ≥ cfg.maxRetries then
            ⟨scrollCount, retries + 1, "maxRetries"⟩
          else
            advLoop cfg env (i + 1) scrollCount (retries + 1) lastHeight lastNodeCount
        else
          advLoop cfg env (i + 1) (scrollCount + 1) 0 newHeight newNodeCount
  else
    ⟨scrollCount, retries, "maxScrolls"⟩
termination_by (cfg.maxScrolls - scrollCount, cfg.maxRetries - retries)
decreasing_by
  · apply Prod.Lex.right
    omega
  · apply Prod.Lex.right
    omega
  · apply Prod.Lex.left
    omega

/-- The full environment of one `advancedAutoScroll` run: the two baseline
signal captures (js_scraper.js 702-703, *outside* the try/catch, so they may
throw) and the per-iteration behaviour of the loop. -/
structure ScrollEnv where
  initHeight : Except String Int
  initNodeCount : Except String Int
  events : Nat → IterEvent

/-- The method `advancedAutoScroll` (js_scraper.js 691-754).  `Except.error` is a JS
exception propagating to the caller. -/
def advancedAutoScroll (cfg : ScrollConfig) (env : ScrollEnv) : Except String ScrollResult :=
  match env.initHeight with
  | .error e => .error e
  | .ok h =>
    match env.initNodeCount with
    | .error e => .error e
    | .ok n => .ok (advLoop cfg env.events 0 0 0 h n)

/-- A page that grows for the first `p` loop iterations (height increases by
one per step, node count constant) and then freezes; no `untilSelector`
element ever appears and no `untilCallback` ever stops. -/
def rampEnv (p : Nat) : Nat → IterEvent :=
  fun i =>
    if i < p then .normal false false ((i : Int) + 1) 0
    else .normal false false (p : Int) 0

/-- A page whose iterations all throw. -/
def errEnv : Nat → IterEvent := fun _ => .err

/-- A `rampEnv` page whose baseline captures succeed with height 0, node count 0. -/
def rampScrollEnv (p : Nat) : ScrollEnv := ⟨.ok 0, .ok 0, rampEnv p⟩

/-!
## Network response correlator (`waitForNetworkResponse`, js_scraper.js 783-808)

The method races a `setTimeout` timer against a `response` listener.  The
JS session is single-threaded, so the observable behaviour of one call is
determined by the sequence of response events the page delivers before the
timer fires; the embedding takes that sequence as input and returns both
the resolved value (the code resolves a plain `string | undefined`, see the
JSDoc at js_scraper.js 781) and a trace of the listener/timer operations
performed.
-/

/-- JS `String.prototype.includes`, over character lists. -/
def strIncludesAux (needle : List Char) : List Char → Bool
  | [] => needle.isPrefixOf []
  | c :: rest => needle.isPrefixOf (c :: rest) || strIncludesAux needle rest

/-- Models `url.includes(urlMatch)` (js_scraper.js 793). -/
def strIncludes (hay needle : String) : Bool :=
  strIncludesAux needle.data hay.data

/-- The `urlMatch` argument: a literal substring or a RegExp, the latter
modelled by its test function (js_scraper.js 792-794). -/
inductive UrlMatch where
  | substr (s : String) : UrlMatch
  | pattern (test : String → Bool) : UrlMatch

/-- Models `typeof urlMatch === 'string' ? url.includes(urlMatch) : urlMatch.test(url)`
(js_scraper.js 792-794). -/
def urlMatches (m : UrlMatch) (url : String) : Bool :=
  match m with
  | .substr s => strIncludes url s
  | .pattern t => t url

/-- One observed response event: its request URL and the outcome of
`response.text()` (which throws e.g. when the stream was already consumed,
js_scraper.js 799-801). -/
structure RespEvent where
  url : String
  text : Except String String

/-- Listener/timer operations performed by one `waitForNetworkResponse`
call, in order. -/
inductive NetAction where
  | setTimer : NetAction
  | addListener : NetAction
  | clearTimer : NetAction
  | removeListener : NetAction
  | timerFire : NetAction
  | resolveRet (body : Option String) : NetAction
deriving DecidableEq

/-- Recognizes the promise-resolution action. -/
def isResolve : NetAction → Bool
  | .resolveRet _ => true
  | _ => false

/-- The handler `onResponse` applied to each event in arrival order
(js_scraper.js 790-804); if no event matches before the timer fires, the
timeout branch runs (js_scraper.js 785-788).  Returns the resolved value
and the operation trace after registration. -/
def netScan (m : UrlMatch) : List RespEvent → Option String × List NetAction
  | [] => (none, [.timerFire, .removeListener, .resolveRet none])
  | e :: rest =>
    if urlMatches m e.url then
      match e.text with
      | .ok b => (some b, [.clearTimer, .removeListener, .resolveRet (some b)])
      | .error _ => (none, [.clearTimer, .removeListener, .resolveRet none])
    else netScan m rest

/-- The method `waitForNetworkResponse` (js_scraper.js 783-808): the promise executor
first starts the timer, then registers the listener, then the race plays
out over the delivered events. -/
def waitForNetworkResponse (m : UrlMatch) (events : List RespEvent) :
    Option String × List NetAction :=
  ((netScan m events).1,
    .setTimer :: .addListener :: (netScan m events).2)

/-!
## Form interaction automaton (`handleForm`, js_scraper.js 828-894, and
`handleDynamicFormFields`, js_scraper.js 904-925)

`handleForm` touches the page at fixed points: the initial
`waitForSelector`, then per field a `page.$` lookup, two element probes
(`el.type`, `el.tagName.toLowerCase()`) and one dispatched driver call,
then the optional `page.evaluate(validate)`, then the submit block
(`page.$`, `form.evaluate(form => form.submit())`, `waitForNavigation`).
The environment records each outcome; the embedding returns the
`{success, errors}` value together with a trace of the element operations
performed, so that "the submit action was triggered n times" is the count
of `submitForm` actions in the trace.
-/

/-- A JS value supplied for a field; only its truthiness and its payload are
observable through the dispatch (js_scraper.js 856-864). -/
inductive JSVal where
  | str (s : String) : JSVal
  | boolean (b : Bool) : JSVal
deriving DecidableEq

/-- JS truthiness for the values a caller passes as field values. -/
def JSVal.truthy : JSVal → Bool
  | .str s => !(s == "")
  | .boolean b => b

/-- Element/driver operations performed by `handleForm`. -/
inductive FormAction where
  | lookup (selector : String) : FormAction
  | selectOption (selector : String) (value : JSVal) : FormAction
  | clickElem (selector : String) : FormAction
  | uploadFile (selector : String) (value : JSVal) : FormAction
  | typeText (selector : String) (value : JSVal) (delayMs : Nat) : FormAction
  | submitForm : FormAction
deriving DecidableEq

/-- What the page answers for one field of the fill loop. -/
structure ElemInfo where
  /-- Outcome of `element.evaluate(el => el.type)` (js_scraper.js 852). -/
  tpe : Except String String
  /-- Outcome of `element.evaluate(el => el.tagName.toLowerCase())` (js_scraper.js 853). -/
  tag : Except String String
  /-- Outcome of the dispatched driver call (select/click/upload/type). -/
  act : Except String Unit

/-- Outcome of `page.$(selector)` for one field (js_scraper.js 845). -/
inductive FieldBehavior where
  | lookupThrow (msg : String) : FieldBehavior
  | notFound : FieldBehavior
  | found (info : ElemInfo) : FieldBehavior

/-- Result of the caller-supplied validation function evaluated in the page
(js_scraper.js 872-877). -/
structure ValidationOutcome where
  valid : Bool
  errors : List String

/-- The destructured `options` of `handleForm` (js_scraper.js 829-835);
`fields` is `Object.entries(fields)` in insertion order; `validate` is
modelled by presence. -/
structure FormOptions where
  formSelector : String
  fields : List (String × JSVal) := []
  submit : Bool := true
  validate : Bool := false

/-- The page's behaviour during one `handleForm` call. -/
structure FormEnv where
  /-- Outcome of `page.waitForSelector(formSelector, ...)` (js_scraper.js 840). -/
  waitForm : Except String Unit
  /-- Per field (by position) behaviour of the fill loop. -/
  fieldBeh : Nat → FieldBehavior
  /-- Outcome of `page.evaluate(validate)` (js_scraper.js 873), consulted only when a
  validator is supplied. -/
  validateRes : Except String ValidationOutcome
  /-- Outcome of `page.$(formSelector)` at submit time (js_scraper.js 881):
  `ok true` an element, `ok false` null, `error` a thrown exception. -/
  submitLookup : Except String Bool
  /-- Outcome of `form.evaluate(form => form.submit())` (js_scraper.js 882). -/
  submitEval : Except String Unit
  /-- Outcome of `page.waitForNavigation(...)` (js_scraper.js 883). -/
  waitNav : Except String Unit

/-- Runtime classification and dispatch of one field (js_scraper.js
855-865): `select` tag → choose option by value; `checkbox`/`radio` type →
click only when the value is truthy (`none`: no action, unchecking is
unsupported); `file` type → upload the value as a path; anything else →
type the value with a 100 ms per-keystroke delay. -/
def dispatchAction (selector : String) (tag tpe : String) (value : JSVal) :
    Option FormAction :=
  if tag == "select" then some (.selectOption selector value)
  else if tpe == "checkbox" || tpe == "radio" then
    if value.truthy then some (.clickElem selector) else none
  else if tpe == "file" then some (.uploadFile selector value)
  else some (.typeText selector value 100)

/-- One iteration of the fill loop (js_scraper.js 843-869): lookup, probe,
dispatch; a missing element records `Field not found: <selector>`, any
caught exception records `Error filling <selector>: <message>`. -/
def fillField (beh : FieldBehavior) (selector : String) (value : JSVal) :
    List String × List FormAction :=
  match beh with
  | .lookupThrow msg =>
      (["Error filling " ++ selector ++ ": " ++ msg], [.lookup selector])
  | .notFound => (["Field not found: " ++ selector], [.lookup selector])
  | .found info =>
    match info.tpe with
    | .error msg =>
        (["Error filling " ++ selector ++ ": " ++ msg], [.lookup selector])
    | .ok tpe =>
      match info.tag with
      | .error msg =>
          (["Error filling " ++ selector ++ ": " ++ msg], [.lookup selector])
      | .ok tag =>
        match dispatchAction selector tag tpe value with
        | none => ([], [.lookup selector])
        | some a =>
          match info.act with
          | .ok _ => ([], [.lookup selector, a])
          | .error msg =>
              (["Error filling " ++ selector ++ ": " ++ msg], [.lookup selector, a])

/-- The fill loop over `Object.entries(fields)` in caller order; errors
accumulate and processing always continues with the next field. -/
def fillLoop (env : Nat → FieldBehavior) : List (String × JSVal) → Nat →
    List String × List FormAction
  | [], _ => ([], [])
  | (selector, value) :: rest, i =>
    ((fillField (env i) selector value).1 ++ (fillLoop env rest (i + 1)).1,
      (fillField (env i) selector value).2 ++ (fillLoop env rest (i + 1)).2)

/-- The conditional submit block (js_scraper.js 880-884), entered only when
submission is requested and the accumulated error list is empty.  Returns
the message of an exception that escaped to the outer catch (if any) and
the actions performed.  A null form makes `form.evaluate` throw a
TypeError before any submit runs. -/
def submitPhase (opts : FormOptions) (env : FormEnv) (errs : List String) :
    Option String × List FormAction :=
  if opts.submit && errs.isEmpty then
    match env.submitLookup with
    | .error msg => (some msg, [])
    | .ok false => (some "Cannot read properties of null", [])
    | .ok true =>
      match env.submitEval with
      | .error msg => (some msg, [])
      | .ok _ =>
        match env.waitNav with
        | .error msg => (some msg, [.submitForm])
        | .ok _ => (none, [.submitForm])
  else (none, [])

/-- The value returned by `handleForm` (js_scraper.js 886-893). -/
structure FormResult where
  success : Bool
  errors : List String
deriving DecidableEq, Repr

/-- The accumulated error list at the submit decision point: the fill-loop
errors plus the custom-validation errors (js_scraper.js 843-877), given the
validation outcome `vr`. -/
def decisionErrors (opts : FormOptions) (env : FormEnv) (vr : ValidationOutcome) :
    List String :=
  (fillLoop env.fieldBeh opts.fields 0).1 ++ (if vr.valid then [] else vr.errors)

/-- The tail of `handleForm` after locate and validation succeeded: the
conditional submit and the return statement (js_scraper.js 880-889), with
the outer catch around the submit block. -/
def handleFormSubmitStage (opts : FormOptions) (env : FormEnv) (vr : ValidationOutcome) :
    FormResult × List FormAction :=
  match submitPhase opts env (decisionErrors opts env vr) with
  | (some msg, acts) =>
      (⟨false, decisionErrors opts env vr ++ ["Form handling error: " ++ msg]⟩,
        (fillLoop env.fieldBeh opts.fields 0).2 ++ acts)
  | (none, acts) =>
      (⟨(decisionErrors opts env vr).isEmpty, decisionErrors opts env vr⟩,
        (fillLoop env.fieldBeh opts.fields 0).2 ++ acts)

/-- The method `handleForm` (js_scraper.js 828-894).  Any exception thrown outside the
per-field try (locate, validation evaluate, submit block) reaches the outer
catch, which appends `Form handling error: <message>` and returns
`success: false`. -/
def handleForm (opts : FormOptions) (env : FormEnv) : FormResult × List FormAction :=
  match env.waitForm with
  | .error msg => (⟨false, ["Form handling error: " ++ msg]⟩, [])
  | .ok _ =>
    match (if opts.validate then env.validateRes else .ok ⟨true, []⟩) with
    | .error msg =>
        (⟨false, (fillLoop env.fieldBeh opts.fields 0).1 ++
            ["Form handling error: " ++ msg]⟩,
          (fillLoop env.fieldBeh opts.fields 0).2)
    | .ok vr => handleFormSubmitStage opts env vr

/-- Number of times the form's submit action was triggered. -/
def submitCount (acts : List FormAction) : Nat := acts.count .submitForm

/-- The field selectors looked up, in order. -/
def lookups : List FormAction → List String
  | [] => []
  | .lookup s :: rest => s :: lookups rest
  | _ :: rest => lookups rest

/-!
## Dynamic form fields (`handleDynamicFormFields`, js_scraper.js 904-925)
-/

/-- The page's behaviour during one `handleDynamicFormFields` call; element
handles are opaque and modelled by strings. -/
structure DynEnv where
  /-- Outcome of `page.click(triggerSelector)` (js_scraper.js 913). -/
  click : Except String Unit
  /-- Outcome of `page.waitForSelector(fieldSelector, ...)` (js_scraper.js 916);
  `error` covers both a timeout and any other thrown failure. -/
  waitField : Except String Unit
  /-- Outcome of `page.$$(fieldSelector)` (js_scraper.js 919). -/
  query : Except String (List String)

/-- The body of the `try` block of `handleDynamicFormFields`. -/
def dynBody (env : DynEnv) : Except String (List String) :=
  match env.click with
  | .error msg => .error msg
  | .ok _ =>
    match env.waitField with
    | .error msg => .error msg
    | .ok _ => env.query

/-- The method `handleDynamicFormFields` (js_scraper.js 904-925): the catch swallows
every failure and returns an empty array. -/
def handleDynamicFormFields (env : DynEnv) : List String :=
  match dynBody env with
  | .ok fields => fields
  | .error _ => []

/-! ### Concrete runs used by claim theorems -/

/-- Options of the C5 counterexample run: an empty field list, submission
requested, no validator. -/
def cexFormOptions : FormOptions := { formSelector := "#checkout" }

/-- Environment of the C5 counterexample run: everything succeeds except
the submit-time `page.$(formSelector)`, which throws. -/
def cexFormEnv : FormEnv :=
  { waitForm := .ok (), fieldBeh := fun _ => .notFound,
    validateRes := .ok ⟨true, []⟩,
    submitLookup := .error "Execution context was destroyed",
    submitEval := .ok (), waitNav := .ok () }

/-- Environment of the C5 witness run: every page operation succeeds. -/
def okFormEnv : FormEnv :=
  { waitForm := .ok (), fieldBeh := fun _ => .notFound,
    validateRes := .ok ⟨true, []⟩, submitLookup := .ok true,
    submitEval := .ok (), waitNav := .ok () }

/-- Options of the C6 scenario: three text fields, no submission. -/
def threeFieldOptions : FormOptions :=
  { formSelector := "#form", submit := false,
    fields := [("#f1", .str "a"), ("#f2", .str "b"), ("#f3", .str "c")] }

/-- Environment of the C6 scenario: the second field is missing, the other
two resolve to plain text inputs. -/
def threeFieldEnv : FormEnv :=
  { waitForm := .ok (),
    fieldBeh := fun i =>
      if i = 1 then .notFound else .found ⟨.ok "text", .ok "input", .ok ()⟩,
    validateRes := .ok ⟨true, []⟩, submitLookup := .ok true,
    submitEval := .ok (), waitNav := .ok () }

/-! ### Step equations and invariants of the scroll loop -/

/-- Loop guard fails: exit with reason `maxScrolls` (js_scraper.js 706, 753). -/
theorem advLoop_exit (cfg : ScrollConfig) (env : Nat → IterEvent) (i sc r : Nat)
    (lh ln : Int) (h : ¬ sc < cfg.maxScrolls) :
    advLoop cfg env i sc r lh ln = ⟨sc, r, "maxScrolls"⟩ := by
  rw [advLoop]
  simp [h]

/-- An iteration that throws, below the retry ceiling: the exception is
caught and counted as a retry (js_scraper.js 743-750). -/
theorem advLoop_err_cont (cfg : ScrollConfig) (env : Nat → IterEvent) (i sc r : Nat)
    (lh ln : Int) (h : sc < cfg.maxScrolls) (he : env i = .err)
    (hr : r + 1 < cfg.maxRetries) :
    advLoop cfg env i sc r lh ln = advLoop cfg env (i + 1) sc (r + 1) lh ln := by
  rw [advLoop]
  simp [h, he]
  omega

/-- An iteration that throws, reaching the retry ceiling: terminal reason
is `error`, not `maxRetries` (js_scraper.js 746-748). -/
theorem advLoop_err_stop (cfg : ScrollConfig) (env : Nat → IterEvent) (i sc r : Nat)
    (lh ln : Int) (h : sc < cfg.maxScrolls) (he : env i = .err)
    (hr : cfg.maxRetries ≤ r + 1) :
    advLoop cfg env i sc r lh ln = ⟨sc, r + 1, "error"⟩ := by
  rw [advLoop]
  simp [h, he]
  omega

/-- The `untilSelector` check fires (js_scraper.js 709-714): it is decided
before the callback check and before any growth, whatever `cbStop` and the
fresh signals say. -/
theorem advLoop_sel (cfg : ScrollConfig) (env : Nat → IterEvent) (i sc r : Nat)
    (lh ln nh nn : Int) (cb : Bool) (h : sc < cfg.maxScrolls)
    (he : env i = .normal true cb nh nn) (hs : cfg.untilSelector.isSome) :
    advLoop cfg env i sc r lh ln = ⟨sc, r, "untilSelector"⟩ := by
  rw [advLoop]
  simp [h, he, hs]

/-- The `untilCallback` check fires (js_scraper.js 716-721): it is decided
before any growth, whatever the fresh signals say, provided the selector
check did not fire first. -/
theorem advLoop_cb (cfg : ScrollConfig) (env : Nat → IterEvent) (i sc r : Nat)
    (lh ln nh nn : Int) (sf : Bool) (h : sc < cfg.maxScrolls)
    (he : env i = .normal sf true nh nn)
    (hs : (cfg.untilSelector.isSome && sf) = false) (hc : cfg.untilCallback.isSome) :
    advLoop cfg env i sc r lh ln = ⟨sc, r, "untilCallback"⟩ := by
  rw [advLoop]
  simp [h, he, hs, hc]

/-- A stagnant iteration below the retry ceiling: both signals unchanged,
`retries` incremented, loop continues (js_scraper.js 730-736). -/
theorem advLoop_stag_cont (cfg : ScrollConfig) (env : Nat → IterEvent) (i sc r : Nat)
    (lh ln nh nn : Int) (sf cb : Bool) (h : sc < cfg.maxScrolls)
    (he : env i = .normal sf cb nh nn)
    (hs : (cfg.untilSelector.isSome && sf) = false)
    (hc : (cfg.untilCallback.isSome && cb) = false)
    (hg : nh = lh ∧ nn = ln)
    (hr : r + 1 < cfg.maxRetries) :
    advLoop cfg env i sc r lh ln = advLoop cfg env (i + 1) sc (r + 1) lh ln := by
  obtain ⟨h1, h2⟩ := hg
  subst h1
  subst h2
  rw [advLoop]
  simp [h, he, hs, hc]
  omega

/-- A stagnant iteration reaching the retry ceiling: terminal reason
`maxRetries` (js_scraper.js 731-734). -/
theorem advLoop_stag_stop (cfg : ScrollConfig) (env : Nat → IterEvent) (i sc r : Nat)
    (lh ln nh nn : Int) (sf cb : Bool) (h : sc < cfg.maxScrolls)
    (he : env i = .normal sf cb nh nn)
    (hs : (cfg.untilSelector.isSome && sf) = false)
    (hc : (cfg.untilCallback.isSome && cb) = false)
    (hg : nh = lh ∧ nn = ln)
    (hr : cfg.maxRetries ≤ r + 1) :
    advLoop cfg env i sc r lh ln = ⟨sc, r + 1, "maxRetries"⟩ := by
  obtain ⟨h1, h2⟩ := hg
  subst h1
  subst h2
  rw [advLoop]
  simp [h, he, hs, hc]
  omega

/-- Bool coercion helper: a boolean that is not true is false. -/
theorem bool_eq_false {b : Bool} (h : ¬ b = true) : b = false := by
  cases b
  · rfl
  · exact absurd rfl h

/-- A productive iteration: some signal changed, so `scrollCount` is
incremented, `retries` reset to zero and the baseline signals replaced
(js_scraper.js 737-742). -/
theorem advLoop_prod (cfg : ScrollConfig) (env : Nat → IterEvent) (i sc r : Nat)
    (lh ln nh nn : Int) (sf cb : Bool) (h : sc < cfg.maxScrolls)
    (he : env i = .normal sf cb nh nn)
    (hs : (cfg.untilSelector.isSome && sf) = false)
    (hc : (cfg.untilCallback.isSome && cb) = false)
    (hg : ¬ (nh = lh ∧ nn = ln)) :
    advLoop cfg env i sc r lh ln = advLoop cfg env (i + 1) (sc + 1) 0 nh nn := by
  rw [advLoop]
  simp [h, he, hs, hc, hg]

/-- Bool conjunction helper. -/
theorem bool_and_true {a b : Bool} (h : (a && b) = true) : a = true ∧ b = true := by
  cases a <;> cases b <;> simp_all

/-- The counter `scrollCount` only ever grows by one while strictly below `maxScrolls`,
so the returned `scrolls` never exceeds `maxScrolls`. -/
theorem advLoop_scrolls_le (cfg : ScrollConfig) (env : Nat → IterEvent) (i sc r : Nat)
    (lh ln : Int) :
    sc ≤ cfg.maxScrolls → (advLoop cfg env i sc r lh ln).scrolls ≤ cfg.maxScrolls := by
  induction i, sc, r, lh, ln using advLoop.induct cfg env with
  | case1 i sc r lh ln h he hr =>
      intro _
      rw [advLoop_err_stop cfg env i sc r lh ln h he hr]
      exact le_of_lt h
  | case2 i sc r lh ln h he hr ih =>
      intro _
      rw [advLoop_err_cont cfg env i sc r lh ln h he (by omega)]
      exact ih (le_of_lt h)
  | case3 i sc r lh ln h sf cb nh nn he hs =>
      intro _
      obtain ⟨h1, h2⟩ := bool_and_true hs
      subst h2
      rw [advLoop_sel cfg env i sc r lh ln nh nn cb h he h1]
      exact le_of_lt h
  | case4 i sc r lh ln h sf cb nh nn he hs hc =>
      intro _
      obtain ⟨h1, h2⟩ := bool_and_true hc
      subst h2
      rw [advLoop_cb cfg env i sc r lh ln nh nn sf h he (bool_eq_false hs) h1]
      exact le_of_lt h
  | case5 i sc r lh ln h sf cb nh nn he hs hc hg hr =>
      intro _
      rw [advLoop_stag_stop cfg env i sc r lh ln nh nn sf cb h he
        (bool_eq_false hs) (bool_eq_false hc) hg hr]
      exact le_of_lt h
  | case6 i sc r lh ln h sf cb nh nn he hs hc hg hr ih =>
      intro _
      rw [advLoop_stag_cont cfg env i sc r lh ln nh nn sf cb h he
        (bool_eq_false hs) (bool_eq_false hc) hg (by omega)]
      exact ih (le_of_lt h)
  | case7 i sc r lh ln h sf cb nh nn he hs hc hg ih =>
      intro _
      rw [advLoop_prod cfg env i sc r lh ln nh nn sf cb h he
        (bool_eq_false hs) (bool_eq_false hc) hg]
      exact ih (by omega)
  | case8 i sc r lh ln h =>
      intro hsc
      rw [advLoop_exit cfg env i sc r lh ln h]
      exact hsc

/-- Exiting at the scroll ceiling is only possible right after a productive
step (or before any step): whenever the loop is entered with
`r = 0 ∨ sc < maxScrolls`, a `maxScrolls` exit carries `retries = 0`. -/
theorem advLoop_maxScrolls_retries (cfg : ScrollConfig) (env : Nat → IterEvent)
    (i sc r : Nat) (lh ln : Int) :
    (r = 0 ∨ sc < cfg.maxScrolls) →
    (advLoop cfg env i sc r lh ln).stoppedBy = "maxScrolls" →
    (advLoop cfg env i sc r lh ln).retries = 0 := by
  induction i, sc, r, lh, ln using advLoop.induct cfg env with
  | case1 i sc r lh ln h he hr =>
      intro _ hstop
      rw [advLoop_err_stop cfg env i sc r lh ln h he hr] at hstop
      exact absurd (show ("error" : String) = "maxScrolls" from hstop) (by decide)
  | case2 i sc r lh ln h he hr ih =>
      intro _ hstop
      rw [advLoop_err_cont cfg env i sc r lh ln h he (by omega)] at hstop ⊢
      exact ih (Or.inr h) hstop
  | case3 i sc r lh ln h sf cb nh nn he hs =>
      intro _ hstop
      obtain ⟨h1, h2⟩ := bool_and_true hs
      subst h2
      rw [advLoop_sel cfg env i sc r lh ln nh nn cb h he h1] at hstop
      exact absurd (show ("untilSelector" : String) = "maxScrolls" from hstop) (by decide)
  | case4 i sc r lh ln h sf cb nh nn he hs hc =>
      intro _ hstop
      obtain ⟨h1, h2⟩ := bool_and_true hc
      subst h2
      rw [advLoop_cb cfg env i sc r lh ln nh nn sf h he (bool_eq_false hs) h1] at hstop
      exact absurd (show ("untilCallback" : String) = "maxScrolls" from hstop) (by decide)
  | case5 i sc r lh ln h sf cb nh nn he hs hc hg hr =>
      intro _ hstop
      rw [advLoop_stag_stop cfg env i sc r lh ln nh nn sf cb h he
        (bool_eq_false hs) (bool_eq_false hc) hg hr] at hstop
      exact absurd (show ("maxRetries" : String) = "maxScrolls" from hstop) (by decide)
  | case6 i sc r lh ln h sf cb nh nn he hs hc hg hr ih =>
      intro _ hstop
      rw [advLoop_stag_cont cfg env i sc r lh ln nh nn sf cb h he
        (bool_eq_false hs) (bool_eq_false hc) hg (by omega)] at hstop ⊢
      exact ih (Or.inr h) hstop
  | case7 i sc r lh ln h sf cb nh nn he hs hc hg ih =>
      intro _ hstop
      rw [advLoop_prod cfg env i sc r lh ln nh nn sf cb h he
        (bool_eq_false hs) (bool_eq_false hc) hg] at hstop ⊢
      exact ih (Or.inl rfl) hstop
  | case8 i sc r lh ln h =>
      intro hinv _
      rw [advLoop_exit cfg env i sc r lh ln h]
      rcases hinv with h0 | hlt
      · exact h0
      · exact absurd hlt h

/-- Whenever the loop is entered with a stagnation streak strictly below the
ceiling, an exit with reason `maxRetries` or `error` carries
`retries = maxRetries` exactly. -/
theorem advLoop_ceiling_retries (cfg : ScrollConfig) (env : Nat → IterEvent)
    (i sc r : Nat) (lh ln : Int) :
    r < cfg.maxRetries →
    ((advLoop cfg env i sc r lh ln).stoppedBy = "maxRetries" ∨
      (advLoop cfg env i sc r lh ln).stoppedBy = "error") →
    (advLoop cfg env i sc r lh ln).retries = cfg.maxRetries := by
  induction i, sc, r, lh, ln using advLoop.induct cfg env with
  | case1 i sc r lh ln h he hr =>
      intro hrlt _
      rw [advLoop_err_stop cfg env i sc r lh ln h he hr]
      show r + 1 = cfg.maxRetries
      omega
  | case2 i sc r lh ln h he hr ih =>
      intro _ hstop
      rw [advLoop_err_cont cfg env i sc r lh ln h he (by omega)] at hstop ⊢
      exact ih (by omega) hstop
  | case3 i sc r lh ln h sf cb nh nn he hs =>
      intro _ hstop
      obtain ⟨h1, h2⟩ := bool_and_true hs
      subst h2
      rw [advLoop_sel cfg env i sc r lh ln nh nn cb h he h1] at hstop
      rcases hstop with hx | hx
      · exact absurd (show ("untilSelector" : String) = "maxRetries" from hx) (by decide)
      · exact absurd (show ("untilSelector" : String) = "error" from hx) (by decide)
  | case4 i sc r lh ln h sf cb nh nn he hs hc =>
      intro _ hstop
      obtain ⟨h1, h2⟩ := bool_and_true hc
      subst h2
      rw [advLoop_cb cfg env i sc r lh ln nh nn sf h he (bool_eq_false hs) h1] at hstop
      rcases hstop with hx | hx
      · exact absurd (show ("untilCallback" : String) = "maxRetries" from hx) (by decide)
      · exact absurd (show ("untilCallback" : String) = "error" from hx) (by decide)
  | case5 i sc r lh ln h sf cb nh nn he hs hc hg hr =>
      intro hrlt _
      rw [advLoop_stag_stop cfg env i sc r lh ln nh nn sf cb h he
        (bool_eq_false hs) (bool_eq_false hc) hg hr]
      show r + 1 = cfg.maxRetries
      omega
  | case6 i sc r lh ln h sf cb nh nn he hs hc hg hr ih =>
      intro _ hstop
      rw [advLoop_stag_cont cfg env i sc r lh ln nh nn sf cb h he
        (bool_eq_false hs) (bool_eq_false hc) hg (by omega)] at hstop ⊢
      exact ih (by omega) hstop
  | case7 i sc r lh ln h sf cb nh nn he hs hc hg ih =>
      intro hrlt hstop
      rw [advLoop_prod cfg env i sc r lh ln nh nn sf cb h he
        (bool_eq_false hs) (bool_eq_false hc) hg] at hstop ⊢
      exact ih (by omega) hstop
  | case8 i sc r lh ln h =>
      intro _ hstop
      rw [advLoop_exit cfg env i sc r lh ln h] at hstop
      rcases hstop with hx | hx
      · exact absurd (show ("maxScrolls" : String) = "maxRetries" from hx) (by decide)
      · exact absurd (show ("maxScrolls" : String) = "error" from hx) (by decide)

/-- Growth phase of a `rampEnv` run: from iteration `i` with `i` productive
steps recorded the loop reaches the frozen state at iteration `p`. -/
theorem rampA (cfg : ScrollConfig) (p : Nat) (hp : p ≤ cfg.maxScrolls) :
    ∀ k i, i ≤ p → p - i ≤ k → advLoop cfg (rampEnv p) i i 0 (i : Int) 0 =
      advLoop cfg (rampEnv p) p p 0 (p : Int) 0 := by
  intro k
  induction k with
  | zero =>
      intro i hi hk
      have : i = p := by omega
      subst this
      rfl
  | succ k ih =>
      intro i hi hk
      by_cases hip : i < p
      · have he : rampEnv p i = .normal false false ((i : Int) + 1) 0 := by
          unfold rampEnv
          rw [if_pos hip]
        rw [advLoop_prod cfg (rampEnv p) i i 0 (i : Int) 0 ((i : Int) + 1) 0 false false
          (by omega) he (Bool.and_false _) (Bool.and_false _) (by rintro ⟨h1, -⟩; omega)]
        have hnext := ih (i + 1) (by omega) (by omega)
        push_cast at hnext
        exact hnext
      · have : i = p := by omega
        subst this
        rfl

/-- Stagnation phase of a `rampEnv` run: once frozen, the run ends with
reason `maxRetries` and `scrolls = p`. -/
theorem rampB_aux (cfg : ScrollConfig) (p : Nat) (hp : p < cfg.maxScrolls) :
    ∀ k r j, p ≤ j → cfg.maxRetries - r ≤ k →
      (advLoop cfg (rampEnv p) j p r (p : Int) 0).stoppedBy = "maxRetries" ∧
      (advLoop cfg (rampEnv p) j p r (p : Int) 0).scrolls = p := by
  intro k
  induction k with
  | zero =>
      intro r j hj hk
      have he : rampEnv p j = .normal false false (p : Int) 0 := by
        unfold rampEnv
        rw [if_neg (by omega)]
      rw [advLoop_stag_stop cfg (rampEnv p) j p r (p : Int) 0 (p : Int) 0 false false hp he
        (Bool.and_false _) (Bool.and_false _) ⟨rfl, rfl⟩ (by omega)]
      exact ⟨rfl, rfl⟩
  | succ k ih =>
      intro r j hj hk
      have he : rampEnv p j = .normal false false (p : Int) 0 := by
        unfold rampEnv
        rw [if_neg (by omega)]
      by_cases hstop : cfg.maxRetries ≤ r + 1
      · rw [advLoop_stag_stop cfg (rampEnv p) j p r (p : Int) 0 (p : Int) 0 false false hp he
          (Bool.and_false _) (Bool.and_false _) ⟨rfl, rfl⟩ hstop]
        exact ⟨rfl, rfl⟩
      · rw [advLoop_stag_cont cfg (rampEnv p) j p r (p : Int) 0 (p : Int) 0 false false hp he
          (Bool.and_false _) (Bool.and_false _) ⟨rfl, rfl⟩ (by omega)]
        exact ih (r + 1) (j + 1) (by omega) (by omega)

/-- A `rampScrollEnv` run reaches the frozen state with `p` productive steps. -/
theorem rampRun (cfg : ScrollConfig) (p : Nat) (hple : p ≤ cfg.maxScrolls) :
    advancedAutoScroll cfg (rampScrollEnv p) =
      .ok (advLoop cfg (rampEnv p) p p 0 (p : Int) 0) := by
  show Except.ok (advLoop cfg (rampEnv p) 0 0 0 0 0) = _
  exact congrArg Except.ok (rampA cfg p hple p 0 (Nat.zero_le p) (by omega))

/-- Destructor for a non-throwing run: both baseline captures succeeded and
the result is the loop's value from the initial state. -/
theorem advancedAutoScroll_ok_elim (cfg : ScrollConfig) (env : ScrollEnv)
    (res : ScrollResult) (hres : advancedAutoScroll cfg env = .ok res) :
    ∃ hgt cnt, env.initHeight = .ok hgt ∧ env.initNodeCount = .ok cnt ∧
      res = advLoop cfg env.events 0 0 0 hgt cnt := by
  unfold advancedAutoScroll at hres
  rcases hH : env.initHeight with e | hgt <;> rw [hH] at hres
  · exact Except.noConfusion hres
  rcases hN : env.initNodeCount with e | cnt <;> rw [hN] at hres
  · exact Except.noConfusion hres
  refine ⟨hgt, cnt, rfl, rfl, ?_⟩
  have h2 : Except.ok (advLoop cfg env.events 0 0 0 hgt cnt) = Except.ok res := hres
  injection h2 with h3
  exact h3.symm

/-! ### Claim theorems: stabilization driver -/

/-- Counterexample to C1: a run whose *baseline* height capture
(js_scraper.js 702, outside the try/catch) throws propagates the exception
to the caller, so `advancedAutoScroll` does not catch every signal-capture
exception. -/
theorem advancedAutoScroll_baseline_throw_cex :
    advancedAutoScroll { } ⟨.error "Execution context was destroyed", .ok 0, rampEnv 0⟩ =
      .error "Execution context was destroyed" := rfl

/-- C1 (amended): once the two baseline captures succeed, `advancedAutoScroll`
never throws; every exception raised *inside* the loop (termination checks,
growth trigger, in-loop signal captures) is caught and counted as a retry,
and reaching the retry ceiling through such an exception terminates the run
with `stoppedBy = "error"` rather than `"maxRetries"`. -/
theorem advancedAutoScroll_exception_policy (cfg : ScrollConfig) (env : ScrollEnv)
    (hgt cnt : Int) (hH : env.initHeight = .ok hgt) (hN : env.initNodeCount = .ok cnt) :
    (advancedAutoScroll cfg env = .ok (advLoop cfg env.events 0 0 0 hgt cnt)) ∧
    (∀ i sc r, ∀ lh ln : Int, sc < cfg.maxScrolls → env.events i = .err →
      (r + 1 < cfg.maxRetries →
        advLoop cfg env.events i sc r lh ln =
          advLoop cfg env.events (i + 1) sc (r + 1) lh ln) ∧
      (cfg.maxRetries ≤ r + 1 →
        advLoop cfg env.events i sc r lh ln = ⟨sc, r + 1, "error"⟩)) := by
  constructor
  · unfold advancedAutoScroll
    rw [hH, hN]
  · intro i sc r lh ln h he
    exact ⟨fun hr => advLoop_err_cont cfg env.events i sc r lh ln h he hr,
      fun hr => advLoop_err_stop cfg env.events i sc r lh ln h he hr⟩

/-- Witness for the amended C1: a concrete run whose only iteration throws
ends with reason `error` (not `maxRetries`), without propagating. -/
theorem advancedAutoScroll_exception_policy_witness :
    advLoop { maxScrolls := 1, maxRetries := 1 } errEnv 0 0 0 0 0 = ⟨0, 1, "error"⟩ :=
  ((advancedAutoScroll_exception_policy { maxScrolls := 1, maxRetries := 1 }
    ⟨.ok 0, .ok 0, errEnv⟩ 0 0 rfl rfl).2 0 0 0 0 0 (by decide) rfl).2 (by decide)

/-- C3: `scrolls ≤ maxScrolls` on every non-throwing run, and the exit reason
follows the fixed check order: with both `untilSelector` and `untilCallback`
configured and both truthy at the first iteration, the selector wins; the
callback check fires before any growth is registered even when the fresh
signals changed; a run that freezes after `p < maxScrolls` productive steps
stops with `maxRetries`; a run that stays productive exits at the iteration
ceiling with `maxScrolls` and `scrolls = maxScrolls`. -/
theorem advancedAutoScroll_exit_order :
    (∀ (cfg : ScrollConfig) (env : ScrollEnv) (res : ScrollResult),
      advancedAutoScroll cfg env = .ok res → res.scrolls ≤ cfg.maxScrolls) ∧
    (∀ (cfg : ScrollConfig) (env : ScrollEnv) (s c : String) (hgt cnt nh nn : Int),
      cfg.untilSelector = some s → cfg.untilCallback = some c →
      env.initHeight = .ok hgt → env.initNodeCount = .ok cnt →
      env.events 0 = .normal true true nh nn → 0 < cfg.maxScrolls →
      advancedAutoScroll cfg env = .ok ⟨0, 0, "untilSelector"⟩) ∧
    (∀ (cfg : ScrollConfig) (env : ScrollEnv) (c : String) (hgt cnt nh nn : Int),
      cfg.untilCallback = some c →
      env.initHeight = .ok hgt → env.initNodeCount = .ok cnt →
      env.events 0 = .normal false true nh nn → 0 < cfg.maxScrolls →
      ¬(nh = hgt ∧ nn = cnt) →
      advancedAutoScroll cfg env = .ok ⟨0, 0, "untilCallback"⟩) ∧
    (∀ (cfg : ScrollConfig) (p : Nat), p < cfg.maxScrolls →
      (advancedAutoScroll cfg (rampScrollEnv p)).map ScrollResult.stoppedBy =
        .ok "maxRetries") ∧
    (∀ cfg : ScrollConfig,
      advancedAutoScroll cfg (rampScrollEnv cfg.maxScrolls) =
        .ok ⟨cfg.maxScrolls, 0, "maxScrolls"⟩) := by
  refine ⟨?_, ?_, ?_, ?_, ?_⟩
  · intro cfg env res hres
    obtain ⟨hgt, cnt, hH, hN, hv⟩ := advancedAutoScroll_ok_elim cfg env res hres
    subst hv
    exact advLoop_scrolls_le cfg env.events 0 0 0 hgt cnt (Nat.zero_le _)
  · intro cfg env s c hgt cnt nh nn hs hc hH hN hev hms
    unfold advancedAutoScroll
    rw [hH, hN]
    show Except.ok (advLoop cfg env.events 0 0 0 hgt cnt) = _
    exact congrArg Except.ok
      (advLoop_sel cfg env.events 0 0 0 hgt cnt nh nn true hms hev (by rw [hs]; rfl))
  · intro cfg env c hgt cnt nh nn hc hH hN hev hms hg
    unfold advancedAutoScroll
    rw [hH, hN]
    show Except.ok (advLoop cfg env.events 0 0 0 hgt cnt) = _
    exact congrArg Except.ok (advLoop_cb cfg env.events 0 0 0 hgt cnt nh nn false hms hev
      (Bool.and_false _) (by rw [hc]; rfl))
  · intro cfg p hp
    rw [rampRun cfg p (le_of_lt hp)]
    exact congrArg Except.ok (rampB_aux cfg p hp cfg.maxRetries 0 p le_rfl (by omega)).1
  · intro cfg
    rw [rampRun cfg cfg.maxScrolls le_rfl]
    rw [advLoop_exit cfg (rampEnv cfg.maxScrolls) cfg.maxScrolls cfg.maxScrolls 0
      (cfg.maxScrolls : Int) 0 (lt_irrefl _)]

/-- Witness for C3 at concrete inputs: the selector reason wins when both
end conditions are truthy, and a frozen page under the default config stops
with `maxRetries`. -/
theorem advancedAutoScroll_exit_order_witness :
    advancedAutoScroll { untilSelector := some "#end", untilCallback := some "cb" }
      ⟨.ok 0, .ok 0, fun _ => .normal true true 7 7⟩ = .ok ⟨0, 0, "untilSelector"⟩ ∧
    (advancedAutoScroll { } (rampScrollEnv 0)).map ScrollResult.stoppedBy =
      .ok "maxRetries" := by
  constructor
  · exact advancedAutoScroll_exit_order.2.1
      { untilSelector := some "#end", untilCallback := some "cb" }
      ⟨.ok 0, .ok 0, fun _ => .normal true true 7 7⟩ "#end" "cb" 0 0 7 7
      rfl rfl rfl rfl rfl (by decide)
  · exact advancedAutoScroll_exit_order.2.2.2.1 { } 0 (by decide)

/-- C4: a run that makes `p` productive steps (some signal changed every
step) and then freezes on both dimensions, with no end condition ever
matching, stops with `maxRetries` and `scrolls = p`; and one loop step is
productive (scrolls incremented, retries reset) precisely when height or
node count changed, otherwise it is a stagnation step. -/
theorem advancedAutoScroll_stagnation_outcome :
    (∀ (cfg : ScrollConfig) (p : Nat), p < cfg.maxScrolls →
      (advancedAutoScroll cfg (rampScrollEnv p)).map ScrollResult.stoppedBy =
        .ok "maxRetries" ∧
      (advancedAutoScroll cfg (rampScrollEnv p)).map ScrollResult.scrolls = .ok p) ∧
    (∀ (cfg : ScrollConfig) (env : Nat → IterEvent) (i sc r : Nat) (lh ln nh nn : Int)
      (sf cb : Bool), sc < cfg.maxScrolls → env i = .normal sf cb nh nn →
      (cfg.untilSelector.isSome && sf) = false →
      (cfg.untilCallback.isSome && cb) = false →
      (¬(nh = lh ∧ nn = ln) →
        advLoop cfg env i sc r lh ln = advLoop cfg env (i + 1) (sc + 1) 0 nh nn) ∧
      ((nh = lh ∧ nn = ln) → r + 1 < cfg.maxRetries →
        advLoop cfg env i sc r lh ln = advLoop cfg env (i + 1) sc (r + 1) lh ln)) := by
  constructor
  · intro cfg p hp
    rw [rampRun cfg p (le_of_lt hp)]
    have hB := rampB_aux cfg p hp cfg.maxRetries 0 p le_rfl (by omega)
    exact ⟨congrArg Except.ok hB.1, congrArg Except.ok hB.2⟩
  · intro cfg env i sc r lh ln nh nn sf cb h he hs hc
    exact ⟨fun hg => advLoop_prod cfg env i sc r lh ln nh nn sf cb h he hs hc hg,
      fun hg hr => advLoop_stag_cont cfg env i sc r lh ln nh nn sf cb h he hs hc hg hr⟩

/-- Witness for C4: under the default config a page that grows twice and
then freezes stops with `maxRetries` after exactly 2 productive steps. -/
theorem advancedAutoScroll_stagnation_outcome_witness :
    (advancedAutoScroll { } (rampScrollEnv 2)).map ScrollResult.stoppedBy =
      .ok "maxRetries" ∧
    (advancedAutoScroll { } (rampScrollEnv 2)).map ScrollResult.scrolls = .ok 2 :=
  advancedAutoScroll_stagnation_outcome.1 { } 2 (by decide)

/-- Counterexample to C10: with `maxRetries = 0` the first stagnant step
already overshoots the ceiling, so the run returns `retries = 1 ≠ maxRetries`
together with `stoppedBy = "maxRetries"`. -/
theorem advancedAutoScroll_retries_field_cex :
    advancedAutoScroll { maxScrolls := 1, maxRetries := 0 } (rampScrollEnv 0) =
      .ok ⟨0, 1, "maxRetries"⟩ ∧
    ScrollConfig.maxRetries { maxScrolls := 1, maxRetries := 0 } ≠ 1 := by
  constructor
  · have h := advLoop_stag_stop { maxScrolls := 1, maxRetries := 0 } (rampEnv 0)
      0 0 0 0 0 0 0 false false (by decide) rfl rfl rfl ⟨rfl, rfl⟩ (by decide)
    exact congrArg Except.ok h
  · decide

/-- C10 (amended): provided `0 < maxRetries`, the returned `retries` equals
`maxRetries` whenever `stoppedBy` is `maxRetries` or `error`, and equals `0`
whenever `stoppedBy` is `maxScrolls`.  (With `maxRetries = 0` the ceiling
exits return `retries = 1` instead.) -/
theorem advancedAutoScroll_retries_field (cfg : ScrollConfig) (env : ScrollEnv)
    (res : ScrollResult) (hres : advancedAutoScroll cfg env = .ok res)
    (hr : 0 < cfg.maxRetries) :
    ((res.stoppedBy = "maxRetries" ∨ res.stoppedBy = "error") →
      res.retries = cfg.maxRetries) ∧
    (res.stoppedBy = "maxScrolls" → res.retries = 0) := by
  obtain ⟨hgt, cnt, hH, hN, hv⟩ := advancedAutoScroll_ok_elim cfg env res hres
  subst hv
  exact ⟨advLoop_ceiling_retries cfg env.events 0 0 0 hgt cnt hr,
    advLoop_maxScrolls_retries cfg env.events 0 0 0 hgt cnt (Or.inl rfl)⟩

/-- Witness for the amended C10: a frozen page under `maxRetries = 1` ends
with `retries = maxRetries = 1`. -/
theorem advancedAutoScroll_retries_field_witness :
    (⟨0, 1, "maxRetries"⟩ : ScrollResult).retries =
      ScrollConfig.maxRetries { maxScrolls := 1, maxRetries := 1 } := by
  have hres : advancedAutoScroll { maxScrolls := 1, maxRetries := 1 } (rampScrollEnv 0) =
      .ok ⟨0, 1, "maxRetries"⟩ := by
    have h := advLoop_stag_stop { maxScrolls := 1, maxRetries := 1 } (rampEnv 0)
      0 0 0 0 0 0 0 false false (by decide) rfl rfl rfl ⟨rfl, rfl⟩ (by decide)
    exact congrArg Except.ok h
  exact (advancedAutoScroll_retries_field { maxScrolls := 1, maxRetries := 1 }
    (rampScrollEnv 0) ⟨0, 1, "maxRetries"⟩ hres (by decide)).1 (Or.inl rfl)

/-! ### Correlator lemmas -/

/-- A non-matching event leaves the scan unchanged. -/
theorem netScan_cons_nomatch (m : UrlMatch) (e : RespEvent) (rest : List RespEvent)
    (he : urlMatches m e.url = false) : netScan m (e :: rest) = netScan m rest := by
  conv_lhs => unfold netScan
  rw [he]
  simp

/-- The first matching event with readable body settles the scan with that body. -/
theorem netScan_cons_match_ok (m : UrlMatch) (e : RespEvent) (rest : List RespEvent)
    (b : String) (hm : urlMatches m e.url = true) (ht : e.text = .ok b) :
    netScan m (e :: rest) =
      (some b, [.clearTimer, .removeListener, .resolveRet (some b)]) := by
  conv_lhs => unfold netScan
  rw [hm, ht]
  simp

/-- The first matching event with a failing body read settles the scan with
`undefined` (js_scraper.js 800-802). -/
theorem netScan_cons_match_err (m : UrlMatch) (e : RespEvent) (rest : List RespEvent)
    (msg : String) (hm : urlMatches m e.url = true) (ht : e.text = .error msg) :
    netScan m (e :: rest) =
      (none, [.clearTimer, .removeListener, .resolveRet none]) := by
  conv_lhs => unfold netScan
  rw [hm, ht]
  simp

/-- If no delivered event matches, the scan resolves `undefined` via the
timeout branch. -/
theorem netScan_nomatch (m : UrlMatch) :
    ∀ events : List RespEvent, (∀ e ∈ events, urlMatches m e.url = false) →
      netScan m events = (none, [.timerFire, .removeListener, .resolveRet none]) := by
  intro events
  induction events with
  | nil => intro _; rfl
  | cons e rest ih =>
      intro hall
      rw [netScan_cons_nomatch m e rest (hall e (by simp))]
      exact ih (fun e' he' => hall e' (by simp [he']))

/-- The first matching event decides the value: read success yields its
body, read failure yields `undefined`. -/
theorem netScan_first (m : UrlMatch) :
    ∀ (pre : List RespEvent) (e : RespEvent) (rest : List RespEvent),
      (∀ e' ∈ pre, urlMatches m e'.url = false) → urlMatches m e.url = true →
      (netScan m (pre ++ e :: rest)).1 =
        (match e.text with | .ok b => some b | .error _ => none) := by
  intro pre
  induction pre with
  | nil =>
      intro e rest _ hm
      show (netScan m (e :: rest)).1 = _
      rcases ht : e.text with msg | b
      · rw [netScan_cons_match_err m e rest msg hm ht]
      · rw [netScan_cons_match_ok m e rest b hm ht]
  | cons p ps ih =>
      intro e rest hpre hm
      show (netScan m (p :: (ps ++ e :: rest))).1 = _
      rw [netScan_cons_nomatch m p (ps ++ e :: rest) (hpre p (by simp))]
      exact ih e rest (fun e' he' => hpre e' (by simp [he'])) hm

/-- A present body comes from a matching event whose read succeeded. -/
theorem netScan_some (m : UrlMatch) :
    ∀ (events : List RespEvent) (b : String), (netScan m events).1 = some b →
      ∃ e ∈ events, urlMatches m e.url = true ∧ e.text = .ok b := by
  intro events
  induction events with
  | nil => intro b hb; exact Option.noConfusion hb
  | cons e rest ih =>
      intro b hb
      rcases hm : urlMatches m e.url with _ | _
      · rw [netScan_cons_nomatch m e rest hm] at hb
        obtain ⟨e', he', hu, ht⟩ := ih b hb
        exact ⟨e', by simp [he'], hu, ht⟩
      · rcases ht : e.text with msg | c
        · rw [netScan_cons_match_err m e rest msg hm ht] at hb
          exact Option.noConfusion hb
        · rw [netScan_cons_match_ok m e rest c hm ht] at hb
          have hcb : c = b := by
            injection hb with h
          subst hcb
          exact ⟨e, by simp, hm, ht⟩

/-- The tail of every scan trace is the single resolution, preceded by
exactly one listener removal and exactly one timer settlement. -/
theorem netScan_shape (m : UrlMatch) :
    ∀ events : List RespEvent, ∃ pre,
      (netScan m events).2 = pre ++ [.resolveRet (netScan m events).1] ∧
      pre.count .removeListener = 1 ∧ pre.count .addListener = 0 ∧
      (pre.filter isResolve).length = 0 ∧
      pre.count .clearTimer + pre.count .timerFire = 1 := by
  intro events
  induction events with
  | nil =>
      exact ⟨[.timerFire, .removeListener], rfl, by decide, by decide, by decide, by decide⟩
  | cons e rest ih =>
      rcases hm : urlMatches m e.url with _ | _
      · rw [netScan_cons_nomatch m e rest hm]
        exact ih
      · rcases ht : e.text with msg | b
        · refine ⟨[.clearTimer, .removeListener], ?_, by decide, by decide, by decide, by decide⟩
          rw [netScan_cons_match_err m e rest msg hm ht]
          rfl
        · refine ⟨[.clearTimer, .removeListener], ?_, by decide, by decide, by decide, by decide⟩
          rw [netScan_cons_match_ok m e rest b hm ht]
          rfl

/-! ### Claim theorems: correlator -/

/-- Counterexample to C2: the code resolves a plain `string | undefined`
(js_scraper.js 781, 787, 799-801), not a `{matched, body}` record.  A
matching response whose body read fails resolves `undefined` — the very
same value the timeout path resolves — so the claimed three-way distinction
(and `body` present iff `matched`) does not exist: the first run below took
the match path (its trace clears the timer), the second took the timeout
path (its trace fires the timer), yet their results are equal. -/
theorem waitForNetworkResponse_match_flag_cex :
    (waitForNetworkResponse (.substr "api")
      [⟨"https://host/api/items", .error "body stream already read"⟩]).1 = none ∧
    (waitForNetworkResponse (.substr "api") ([] : List RespEvent)).1 = none ∧
    (waitForNetworkResponse (.substr "api")
      [⟨"https://host/api/items", .error "body stream already read"⟩]).2.count
        NetAction.clearTimer = 1 ∧
    (waitForNetworkResponse (.substr "api") ([] : List RespEvent)).2.count
      NetAction.timerFire = 1 := by
  refine ⟨?_, rfl, ?_, ?_⟩ <;> decide

/-- C2 (amended): the first matching response with a successful body read
resolves its body text; a matching response whose read fails resolves
`undefined`, exactly like the timeout path (no `matched` flag is returned,
so those two outcomes are indistinguishable to the caller); and a present
body always comes from a matching response. -/
theorem waitForNetworkResponse_result (m : UrlMatch) (events : List RespEvent) :
    ((∀ e ∈ events, urlMatches m e.url = false) →
      (waitForNetworkResponse m events).1 = none) ∧
    (∀ (pre : List RespEvent) (e : RespEvent) (rest : List RespEvent),
      events = pre ++ e :: rest → (∀ e' ∈ pre, urlMatches m e'.url = false) →
      urlMatches m e.url = true →
      (waitForNetworkResponse m events).1 =
        (match e.text with | .ok b => some b | .error _ => none)) ∧
    (∀ b : String, (waitForNetworkResponse m events).1 = some b →
      ∃ e ∈ events, urlMatches m e.url = true ∧ e.text = .ok b) := by
  refine ⟨?_, ?_, ?_⟩
  · intro hall
    show (netScan m events).1 = none
    rw [netScan_nomatch m events hall]
  · intro pre e rest hev hpre hm
    subst hev
    exact netScan_first m pre e rest hpre hm
  · intro b hb
    exact netScan_some m events b hb

/-- Witness for the amended C2: a matching response with readable body
resolves that body. -/
theorem waitForNetworkResponse_result_witness :
    (waitForNetworkResponse (.substr "api")
      [⟨"https://host/api/items", .ok "PAYLOAD"⟩]).1 = some "PAYLOAD" :=
  (waitForNetworkResponse_result (.substr "api")
    [⟨"https://host/api/items", .ok "PAYLOAD"⟩]).2.1
    [] ⟨"https://host/api/items", .ok "PAYLOAD"⟩ [] rfl (by simp) (by decide)

/-- C7: on whichever path settles the call (first matching event, or the
timer when nothing matched), the trace ends with the single resolution,
preceded by exactly one listener deregistration and exactly one timer
settlement — `clearTimeout` on the match path, the timer's own firing on
the timeout path — with no earlier resolution; the one registered listener
is removed (`count addListener = count removeListener = 1` before
resolving), so nothing registered by the call survives it and a later call
cannot observe its events. -/
theorem waitForNetworkResponse_cleanup (m : UrlMatch) (events : List RespEvent) :
    ∃ pre, (waitForNetworkResponse m events).2 =
        pre ++ [.resolveRet (waitForNetworkResponse m events).1] ∧
      pre.count .removeListener = 1 ∧
      pre.count .addListener = 1 ∧
      (pre.filter isResolve).length = 0 ∧
      pre.count .clearTimer + pre.count .timerFire = 1 := by
  obtain ⟨pre, htr, hrem, hadd, hres, htim⟩ := netScan_shape m events
  refine ⟨.setTimer :: .addListener :: pre, ?_, ?_, ?_, ?_, ?_⟩
  · show NetAction.setTimer :: NetAction.addListener :: (netScan m events).2 = _
    rw [htr]
    rfl
  · simpa [List.count_cons] using hrem
  · simpa [List.count_cons] using hadd
  · simpa [List.filter_cons, isResolve] using hres
  · simpa [List.count_cons] using htim

/-! ### Form automaton lemmas -/

/-- The dispatch table never produces the submit action. -/
theorem dispatchAction_ne_submit (sel tag tpe : String) (v : JSVal) (a : FormAction)
    (h : dispatchAction sel tag tpe v = some a) : (a == FormAction.submitForm) = false := by
  unfold dispatchAction at h
  split_ifs at h <;>
    first
      | exact Option.noConfusion h
      | · injection h with h
          subst h
          rfl

/-- No fill-loop iteration ever triggers the submit action. -/
theorem fillField_submitCount (beh : FieldBehavior) (selector : String) (value : JSVal) :
    submitCount (fillField beh selector value).2 = 0 := by
  rcases beh with msg | _ | info
  · rfl
  · rfl
  · rcases info with ⟨tpe, tag, act⟩
    rcases tpe with msg | tpe
    · rfl
    rcases tag with msg | tag
    · rfl
    rcases hd : dispatchAction selector tag tpe value with _ | a
    · rcases act with amsg | u <;> simp [fillField, hd, submitCount]
    · have ha := dispatchAction_ne_submit selector tag tpe value a hd
      rcases act with amsg | u <;>
        simp [fillField, hd, submitCount, List.count_cons, ha]

/-- The whole fill loop triggers zero submit actions. -/
theorem fillLoop_submitCount (env : Nat → FieldBehavior) :
    ∀ (fields : List (String × JSVal)) (i : Nat),
      submitCount (fillLoop env fields i).2 = 0 := by
  intro fields
  induction fields with
  | nil => intro i; rfl
  | cons f rest ih =>
      intro i
      rcases f with ⟨sel, v⟩
      show submitCount ((fillField (env i) sel v).2 ++ (fillLoop env rest (i + 1)).2) = 0
      unfold submitCount
      rw [List.count_append]
      have h1 := fillField_submitCount (env i) sel v
      have h2 := ih (i + 1)
      unfold submitCount at h1 h2
      omega

/-- The submit block never triggers the submit action more than once. -/
theorem submitPhase_le_one (opts : FormOptions) (env : FormEnv) (errs : List String) :
    submitCount (submitPhase opts env errs).2 ≤ 1 := by
  unfold submitPhase
  split_ifs
  · rcases env.submitLookup with msg | b
    · exact Nat.zero_le 1
    rcases b
    · exact Nat.zero_le 1
    rcases env.submitEval with msg | u
    · exact Nat.zero_le 1
    rcases env.waitNav with msg | u <;> exact le_refl 1
  · exact Nat.zero_le 1

/-- The submit block is skipped entirely unless submission is requested with
a clean error list. -/
theorem submitPhase_skip (opts : FormOptions) (env : FormEnv) (errs : List String)
    (h : (opts.submit && errs.isEmpty) = false) :
    submitPhase opts env errs = (none, []) := by
  unfold submitPhase
  rw [h]
  rfl

/-- When entered with a live form and a working driver, the submit block
triggers the submit action exactly once (whether or not the subsequent
navigation wait times out). -/
theorem submitPhase_fire (opts : FormOptions) (env : FormEnv) (errs : List String)
    (h : (opts.submit && errs.isEmpty) = true)
    (hL : env.submitLookup = .ok true) (hE : env.submitEval = .ok ()) :
    (submitPhase opts env errs).2 = [.submitForm] := by
  unfold submitPhase
  rw [h, hL, hE]
  show (match env.waitNav with
    | .error msg => (some msg, [FormAction.submitForm])
    | .ok _ => (none, [FormAction.submitForm])).2 = _
  rcases env.waitNav with msg | u <;> rfl

/-- A run whose locate and validation succeeded continues with the submit
stage. -/
theorem handleForm_wait_ok (opts : FormOptions) (env : FormEnv) (vr : ValidationOutcome)
    (hW : env.waitForm = .ok ())
    (hv : (if opts.validate then env.validateRes else .ok ⟨true, []⟩) = .ok vr) :
    handleForm opts env = handleFormSubmitStage opts env vr := by
  unfold handleForm
  rw [hW, hv]

/-- The submit stage's trace: the fill-loop actions followed by the submit
block's actions. -/
theorem submitStage_trace (opts : FormOptions) (env : FormEnv) (vr : ValidationOutcome) :
    (handleFormSubmitStage opts env vr).2 =
      (fillLoop env.fieldBeh opts.fields 0).2 ++
        (submitPhase opts env (decisionErrors opts env vr)).2 := by
  unfold handleFormSubmitStage
  rcases hs : submitPhase opts env (decisionErrors opts env vr) with ⟨o, acts⟩
  rcases o with _ | msg <;> rfl

/-- Trace of a run that reaches the submit decision: the fill-loop actions
followed by the submit block's actions. -/
theorem handleForm_trace (opts : FormOptions) (env : FormEnv) (vr : ValidationOutcome)
    (hW : env.waitForm = .ok ())
    (hv : (if opts.validate then env.validateRes else .ok ⟨true, []⟩) = .ok vr) :
    (handleForm opts env).2 =
      (fillLoop env.fieldBeh opts.fields 0).2 ++
        (submitPhase opts env (decisionErrors opts env vr)).2 := by
  rw [handleForm_wait_ok opts env vr hW hv]
  exact submitStage_trace opts env vr

/-- Trace of a run whose initial `waitForSelector` throws: nothing happened. -/
theorem handleForm_trace_waitErr (opts : FormOptions) (env : FormEnv) (msg : String)
    (hW : env.waitForm = .error msg) : (handleForm opts env).2 = [] := by
  unfold handleForm
  rw [hW]

/-- Trace of a run whose validation evaluate throws: only the fill loop ran. -/
theorem handleForm_trace_valErr (opts : FormOptions) (env : FormEnv) (msg : String)
    (hW : env.waitForm = .ok ())
    (hv : (if opts.validate then env.validateRes else .ok ⟨true, []⟩) = .error msg) :
    (handleForm opts env).2 = (fillLoop env.fieldBeh opts.fields 0).2 := by
  unfold handleForm
  rw [hW, hv]

/-- Full result of a run whose initial `waitForSelector` throws
(js_scraper.js 840, 890-893). -/
theorem handleForm_waitErr_eq (opts : FormOptions) (env : FormEnv) (msg : String)
    (hW : env.waitForm = .error msg) :
    handleForm opts env = (⟨false, ["Form handling error: " ++ msg]⟩, []) := by
  unfold handleForm
  rw [hW]

/-- Full result of a run whose validation evaluate throws
(js_scraper.js 873, 890-893). -/
theorem handleForm_valErr_eq (opts : FormOptions) (env : FormEnv) (msg : String)
    (hW : env.waitForm = .ok ())
    (hv : (if opts.validate then env.validateRes else .ok ⟨true, []⟩) = .error msg) :
    handleForm opts env =
      (⟨false, (fillLoop env.fieldBeh opts.fields 0).1 ++
          ["Form handling error: " ++ msg]⟩,
        (fillLoop env.fieldBeh opts.fields 0).2) := by
  unfold handleForm
  rw [hW, hv]

/-- A list with a trailing singleton is never empty. -/
theorem append_singleton_isEmpty {α : Type} (l : List α) (x : α) :
    (l ++ [x]).isEmpty = false := by
  cases l <;> rfl

/-- The dispatch table never produces a lookup action. -/
theorem dispatchAction_not_lookup (sel tag tpe : String) (v : JSVal) (a : FormAction)
    (h : dispatchAction sel tag tpe v = some a) : lookups [a] = [] := by
  unfold dispatchAction at h
  split_ifs at h <;>
    first
      | exact Option.noConfusion h
      | · injection h with h
          subst h
          rfl

/-- The projection `lookups` distributes over concatenation. -/
theorem lookups_append : ∀ as bs : List FormAction, lookups (as ++ bs) = lookups as ++ lookups bs := by
  intro as bs
  induction as with
  | nil => rfl
  | cons a rest ih => cases a <;> simp [lookups, ih]

/-- Every field contributes exactly its own lookup. -/
theorem fillField_lookups (beh : FieldBehavior) (sel : String) (v : JSVal) :
    lookups (fillField beh sel v).2 = [sel] := by
  rcases beh with msg | _ | info
  · rfl
  · rfl
  · rcases info with ⟨tpe, tag, act⟩
    rcases tpe with msg | tpe
    · rfl
    rcases tag with msg | tag
    · rfl
    rcases hd : dispatchAction sel tag tpe v with _ | a
    · rcases act with amsg | u <;> simp [fillField, hd, lookups]
    · have ha := dispatchAction_not_lookup sel tag tpe v a hd
      rcases act with amsg | u <;>
        · simp [fillField, hd]
          show lookups (.lookup sel :: [a]) = [sel]
          rw [lookups]
          rw [ha]

/-- The fill loop looks up every supplied selector, in caller order. -/
theorem fillLoop_lookups (env : Nat → FieldBehavior) :
    ∀ (fields : List (String × JSVal)) (i : Nat),
      lookups (fillLoop env fields i).2 = fields.map Prod.fst := by
  intro fields
  induction fields with
  | nil => intro i; rfl
  | cons f rest ih =>
      intro i
      rcases f with ⟨sel, v⟩
      show lookups ((fillField (env i) sel v).2 ++ (fillLoop env rest (i + 1)).2) = _
      rw [lookups_append, fillField_lookups, ih]
      rfl

/-! ### Claim theorems: form automaton -/

/-- Counterexample to C5: submission is requested and the accumulated error
list is empty after the fill loop and validation, yet the submit action is
triggered zero times, because the submit-time form re-lookup
(js_scraper.js 881) throws and the outer catch records the failure
instead. -/
theorem handleForm_submit_once_cex :
    cexFormOptions.submit = true ∧
    decisionErrors cexFormOptions cexFormEnv ⟨true, []⟩ = [] ∧
    submitCount (handleForm cexFormOptions cexFormEnv).2 = 0 ∧
    (handleForm cexFormOptions cexFormEnv).1 =
      ⟨false, ["Form handling error: Execution context was destroyed"]⟩ := by
  refine ⟨rfl, rfl, ?_, ?_⟩ <;> rfl

/-- C5 (amended): the submit action is triggered at most once per
invocation; zero times when submission is not requested or the error list
at the decision point is non-empty; and exactly once when submission is
requested, the decision-point error list is empty, and the submit-time form
lookup and submit evaluation both succeed (whether or not the subsequent
navigation wait times out). -/
theorem handleForm_submit_gate :
    (∀ (opts : FormOptions) (env : FormEnv),
      submitCount (handleForm opts env).2 ≤ 1) ∧
    (∀ (opts : FormOptions) (env : FormEnv), opts.submit = false →
      submitCount (handleForm opts env).2 = 0) ∧
    (∀ (opts : FormOptions) (env : FormEnv) (vr : ValidationOutcome),
      (if opts.validate then env.validateRes else .ok ⟨true, []⟩) = .ok vr →
      decisionErrors opts env vr ≠ [] →
      submitCount (handleForm opts env).2 = 0) ∧
    (∀ (opts : FormOptions) (env : FormEnv) (vr : ValidationOutcome),
      env.waitForm = .ok () →
      (if opts.validate then env.validateRes else .ok ⟨true, []⟩) = .ok vr →
      opts.submit = true → decisionErrors opts env vr = [] →
      env.submitLookup = .ok true → env.submitEval = .ok () →
      submitCount (handleForm opts env).2 = 1) := by
  have hcount : ∀ (opts : FormOptions) (env : FormEnv) (vr : ValidationOutcome),
      env.waitForm = .ok () →
      (if opts.validate then env.validateRes else .ok ⟨true, []⟩) = .ok vr →
      submitCount (handleForm opts env).2 =
        submitCount (submitPhase opts env (decisionErrors opts env vr)).2 := by
    intro opts env vr hW hv
    rw [handleForm_trace opts env vr hW hv]
    unfold submitCount
    rw [List.count_append]
    have h1 := fillLoop_submitCount env.fieldBeh opts.fields 0
    unfold submitCount at h1
    omega
  refine ⟨?_, ?_, ?_, ?_⟩
  · intro opts env
    rcases hW : env.waitForm with msg | u
    · rw [handleForm_trace_waitErr opts env msg hW]
      exact Nat.zero_le 1
    cases u
    rcases hv : (if opts.validate then env.validateRes else .ok ⟨true, []⟩) with msg | vr
    · rw [handleForm_trace_valErr opts env msg hW hv]
      have h1 := fillLoop_submitCount env.fieldBeh opts.fields 0
      omega
    · rw [hcount opts env vr hW hv]
      exact submitPhase_le_one opts env (decisionErrors opts env vr)
  · intro opts env hsub
    rcases hW : env.waitForm with msg | u
    · rw [handleForm_trace_waitErr opts env msg hW]
      rfl
    cases u
    rcases hv : (if opts.validate then env.validateRes else .ok ⟨true, []⟩) with msg | vr
    · rw [handleForm_trace_valErr opts env msg hW hv]
      exact fillLoop_submitCount env.fieldBeh opts.fields 0
    · rw [hcount opts env vr hW hv,
        submitPhase_skip opts env (decisionErrors opts env vr) (by rw [hsub]; rfl)]
      rfl
  · intro opts env vr hv hne
    rcases hW : env.waitForm with msg | u
    · rw [handleForm_trace_waitErr opts env msg hW]
      rfl
    cases u
    have hE : (decisionErrors opts env vr).isEmpty = false := by
      rcases hEq : decisionErrors opts env vr with _ | ⟨a, l⟩
      · exact absurd hEq hne
      · rfl
    rw [hcount opts env vr hW hv,
      submitPhase_skip opts env (decisionErrors opts env vr) (by rw [hE, Bool.and_false])]
    rfl
  · intro opts env vr hW hv hsub hde hL hE
    rw [hcount opts env vr hW hv]
    rw [submitPhase_fire opts env (decisionErrors opts env vr) (by rw [hsub, hde]; rfl) hL hE]
    rfl

/-- Witness for the amended C5: a clean run with submission requested
triggers the submit action exactly once. -/
theorem handleForm_submit_gate_witness :
    submitCount (handleForm cexFormOptions okFormEnv).2 = 1 :=
  handleForm_submit_gate.2.2.2 cexFormOptions okFormEnv ⟨true, []⟩ rfl rfl rfl rfl rfl rfl

/-- C6: `success` is strictly emptiness of the accumulated error list on
every path; a missing field appends exactly `Field not found: <selector>`;
the fill loop looks up every supplied selector in caller order with no
short-circuit; and in the concrete three-field run with the second field
missing the returned errors are exactly that one message, `success` is
false, and the third field is still looked up and typed. -/
theorem handleForm_error_accumulation :
    (∀ (opts : FormOptions) (env : FormEnv),
      (handleForm opts env).1.success = (handleForm opts env).1.errors.isEmpty) ∧
    (∀ (sel : String) (v : JSVal),
      fillField .notFound sel v = (["Field not found: " ++ sel], [.lookup sel])) ∧
    (∀ (env : Nat → FieldBehavior) (fields : List (String × JSVal)) (i : Nat),
      lookups (fillLoop env fields i).2 = fields.map Prod.fst) ∧
    handleForm threeFieldOptions threeFieldEnv =
      (⟨false, ["Field not found: #f2"]⟩,
        [.lookup "#f1", .typeText "#f1" (.str "a") 100, .lookup "#f2",
          .lookup "#f3", .typeText "#f3" (.str "c") 100]) := by
  refine ⟨?_, ?_, ?_, ?_⟩
  · intro opts env
    rcases hW : env.waitForm with msg | u
    · rw [handleForm_waitErr_eq opts env msg hW]
      rfl
    cases u
    rcases hv : (if opts.validate then env.validateRes else .ok ⟨true, []⟩) with msg | vr
    · rw [handleForm_valErr_eq opts env msg hW hv]
      exact (append_singleton_isEmpty _ _).symm
    · rw [handleForm_wait_ok opts env vr hW hv]
      unfold handleFormSubmitStage
      rcases hs : submitPhase opts env (decisionErrors opts env vr) with ⟨o, acts⟩
      rcases o with _ | msg
      · rfl
      · exact (append_singleton_isEmpty _ _).symm
  · intro sel v
    rfl
  · exact fun env fields i => fillLoop_lookups env fields i
  · rfl

/-- C8: runtime classification of a field at fill time (js_scraper.js
851-865): a `select` tag gets an option chosen by value; a `checkbox` or
`radio` type is clicked only when the value is truthy (a falsy value
performs no action); a `file` type receives the value as a file path;
everything else is typed as text with a 100 ms inter-keystroke delay; and
the fill loop performs exactly the dispatched action. -/
theorem handleForm_field_dispatch :
    (∀ (sel tpe : String) (v : JSVal),
      dispatchAction sel "select" tpe v = some (.selectOption sel v)) ∧
    (∀ (sel tag : String) (v : JSVal), (tag == "select") = false →
      ∀ tpe : String, ((tpe == "checkbox") || (tpe == "radio")) = true →
      dispatchAction sel tag tpe v =
        (if v.truthy then some (.clickElem sel) else none)) ∧
    (∀ (sel tag : String) (v : JSVal), (tag == "select") = false →
      dispatchAction sel tag "file" v = some (.uploadFile sel v)) ∧
    (∀ (sel tag tpe : String) (v : JSVal), (tag == "select") = false →
      (tpe == "checkbox") = false → (tpe == "radio") = false →
      (tpe == "file") = false →
      dispatchAction sel tag tpe v = some (.typeText sel v 100)) ∧
    (∀ (sel tpe tag : String) (v : JSVal),
      fillField (.found ⟨.ok tpe, .ok tag, .ok ()⟩) sel v =
        ([], .lookup sel :: (dispatchAction sel tag tpe v).toList)) := by
  refine ⟨?_, ?_, ?_, ?_, ?_⟩
  · intro sel tpe v
    simp [dispatchAction]
  · intro sel tag v h1 tpe h2
    simp [dispatchAction, h1, h2]
  · intro sel tag v h1
    simp [dispatchAction, h1]
  · intro sel tag tpe v h1 h2 h3 h4
    simp [dispatchAction, h1, h2, h3, h4]
  · intro sel tpe tag v
    rcases hd : dispatchAction sel tag tpe v with _ | a <;>
      simp [fillField, hd, Option.toList]

/-- Witness for C8: a falsy value on a checkbox performs no action. -/
theorem handleForm_field_dispatch_witness :
    dispatchAction "#agree" "input" "checkbox" (.boolean false) = none := by
  have h := handleForm_field_dispatch.2.1 "#agree" "input" (.boolean false) rfl "checkbox" rfl
  simpa [JSVal.truthy] using h

/-- C9: `handleDynamicFormFields` swallows every failure: when the trigger
click throws, when the follow-up selector never appears within the timeout
(the wait throws), or when any other step of the body throws, it returns
the empty sequence instead of propagating; on success it returns the
discovered elements. -/
theorem handleDynamicFormFields_swallows :
    (∀ (env : DynEnv) (msg : String), dynBody env = .error msg →
      handleDynamicFormFields env = []) ∧
    (∀ (env : DynEnv) (msg : String), env.waitField = .error msg →
      handleDynamicFormFields env = []) ∧
    (∀ (env : DynEnv) (msg : String), env.click = .error msg →
      handleDynamicFormFields env = []) ∧
    (∀ (env : DynEnv) (fs : List String), dynBody env = .ok fs →
      handleDynamicFormFields env = fs) := by
  refine ⟨?_, ?_, ?_, ?_⟩
  · intro env msg h
    unfold handleDynamicFormFields
    rw [h]
  · intro env msg h
    unfold handleDynamicFormFields dynBody
    rcases hc : env.click with m | u
    · rfl
    · rw [h]
  · intro env msg h
    unfold handleDynamicFormFields dynBody
    rw [h]
  · intro env fs h
    unfold handleDynamicFormFields
    rw [h]

/-- Witness for C9: a trigger that never produces matching elements (the
selector wait times out) yields the empty sequence without throwing. -/
theorem handleDynamicFormFields_swallows_witness :
    handleDynamicFormFields
      ⟨.ok (), .error "waiting for selector failed: timeout 5000ms exceeded",
        .ok ["#extra1"]⟩ = [] :=
  handleDynamicFormFields_swallows.2.1
    ⟨.ok (), .error "waiting for selector failed: timeout 5000ms exceeded",
      .ok ["#extra1"]⟩
    "waiting for selector failed: timeout 5000ms exceeded" rfl

end WebScraper
